import Mathlib

/-!
Verification of the WebSocket runtime embedded in the repository
(packages/next/src/server/websocket).  Each definition below is a shallow
embedding of the corresponding TypeScript function; times are modelled as
integers (milliseconds, as produced by the host clock), JavaScript Maps as
association lists with replace-on-set semantics, and exceptions as
Except/Option results.
-/

/- ===== Shared association-list helper (JavaScript Map.set semantics) ===== -/

/-- Model of JavaScript `Map.set`: replace the value when the key is already
present (keeping its position), otherwise append the new entry at the end. -/
def mapSet {β : Type} : List (String × β) → String → β → List (String × β)
  | [], k, v => [(k, v)]
  | (k0, v0) :: rest, k, v =>
      if k0 = k then (k, v) :: rest else (k0, v0) :: mapSet rest k v

/-- Model of JavaScript `Map.get`: first value stored under the key. -/
def mapGet {β : Type} : List (String × β) → String → Option β
  | [], _ => none
  | (k0, v0) :: rest, k => if k0 = k then some v0 else mapGet rest k

theorem mapSet_length_le {β : Type} (l : List (String × β)) (k : String) (v : β) :
    (mapSet l k v).length ≤ l.length + 1 := by
  induction l with
  | nil => simp [mapSet]
  | cons hd tl ih =>
      cases hd with
      | mk k0 v0 =>
          by_cases h : k0 = k
          · simp [mapSet, h]
          · simp only [mapSet, if_neg h, List.length_cons]
            omega

theorem mapGet_mapSet_self {β : Type} (l : List (String × β)) (k : String) (v : β) :
    mapGet (mapSet l k v) k = some v := by
  induction l with
  | nil => simp [mapSet, mapGet]
  | cons hd tl ih =>
      cases hd with
      | mk k0 v0 =>
          by_cases h : k0 = k <;> simp [mapSet, mapGet, h, ih]

/- ===== Errors and recovery (errors.ts) ===== -/

/-- Recovery verdicts of errors.ts (enum RecoveryStrategy). -/
inductive RecoveryStrategy
  | closeConnection
  | terminateConnection
  | retry
  | ignore
  deriving DecidableEq

/-- An error value as seen by getRecoveryStrategy: either a WebSocketError
carrying its stable code string, or any other thrown value. -/
inductive JsError
  | wsError (code : String)
  | plainError
  deriving DecidableEq

/-- Shallow embedding of errors.ts getRecoveryStrategy: a switch over the
stable code of a WebSocketError, defaulting to terminate for unknown codes
and for non-WebSocket errors. -/
def getRecoveryStrategy : JsError → RecoveryStrategy
  | JsError.wsError code =>
      if code = "ROUTE_NOT_FOUND" then RecoveryStrategy.closeConnection
      else if code = "HANDLER_NOT_FOUND" then RecoveryStrategy.closeConnection
      else if code = "MODULE_IMPORT_ERROR" then RecoveryStrategy.terminateConnection
      else if code = "HANDLER_EXECUTION_ERROR" then RecoveryStrategy.terminateConnection
      else if code = "SERVER_NOT_AVAILABLE" then RecoveryStrategy.closeConnection
      else if code = "CONNECTION_LIMIT_EXCEEDED" then RecoveryStrategy.closeConnection
      else RecoveryStrategy.terminateConnection
  | JsError.plainError => RecoveryStrategy.terminateConnection

/- ===== Connection pool (WebSocketConnectionPool, connection-tracker.ts) ===== -/

/-- Per-connection metadata record kept by the pool. -/
structure ConnMeta where
  path : String
  connectedAt : Int
  lastActivity : Int
  messageCount : Nat
  bytesReceived : Nat
  bytesSent : Nat
  deriving DecidableEq

/-- State of WebSocketConnectionPool: the id-keyed connection map together
with its configuration. -/
structure Pool where
  entries : List (String × ConnMeta)
  maxConnections : Nat
  idleTimeout : Int
  deriving DecidableEq

/-- Shallow embedding of WebSocketConnectionPool.addConnection: refuse when
the map already holds maxConnections entries, otherwise store the connection
with fresh metadata and report success. -/
def addConnection (p : Pool) (id : String) (path : String) (now : Int) : Bool × Pool :=
  if p.maxConnections ≤ p.entries.length then
    (false, p)
  else
    (true,
      { p with
          entries :=
            mapSet p.entries id
              { path := path, connectedAt := now, lastActivity := now
                messageCount := 0, bytesReceived := 0, bytesSent := 0 } })

/-- C4: addConnection refuses (returns false and leaves the pool unchanged)
whenever the pool already holds maxConnections connections, and for every
admitted upgrade the pool size is at most maxConnections both before and
after the admission. -/
theorem addConnection_capacity (p : Pool) (id path : String) (now : Int) :
    (p.maxConnections ≤ p.entries.length → addConnection p id path now = (false, p))
    ∧ ((addConnection p id path now).1 = true →
        p.entries.length ≤ p.maxConnections
        ∧ (addConnection p id path now).2.entries.length ≤ p.maxConnections) := by
  constructor
  · intro h
    simp [addConnection, h]
  · intro h
    by_cases hc : p.maxConnections ≤ p.entries.length
    · simp [addConnection, hc] at h
    · push_neg at hc
      refine ⟨le_of_lt hc, ?_⟩
      have hlen := mapSet_length_le p.entries id
        { path := path, connectedAt := now, lastActivity := now
          messageCount := 0, bytesReceived := 0, bytesSent := 0 }
      simp only [addConnection, if_neg (not_le.mpr hc)]
      omega

/-- Witness for addConnection_capacity: a pool of size 1 with capacity 1
refuses a further connection and stays unchanged. -/
theorem addConnection_capacity_witness :
    addConnection
        { entries := [("a", { path := "/p", connectedAt := 0, lastActivity := 0
                              messageCount := 0, bytesReceived := 0, bytesSent := 0 })]
          maxConnections := 1, idleTimeout := 300000 }
        "b" "/p" 5
      = (false,
          { entries := [("a", { path := "/p", connectedAt := 0, lastActivity := 0
                                messageCount := 0, bytesReceived := 0, bytesSent := 0 })]
            maxConnections := 1, idleTimeout := 300000 }) :=
  (addConnection_capacity
      { entries := [("a", { path := "/p", connectedAt := 0, lastActivity := 0
                            messageCount := 0, bytesReceived := 0, bytesSent := 0 })]
        maxConnections := 1, idleTimeout := 300000 }
      "b" "/p" 5).1 (by decide)

/-- C7: the error-to-recovery mapping is a total deterministic function which
sends RouteNotFound, HandlerNotFound, ServerNotAvailable and ConnectionLimit
to CloseConnection and every other input, including non-WebSocket errors,
ModuleImport and HandlerExecution, to TerminateConnection. -/
theorem recovery_strategy_total_map (e : JsError) :
    getRecoveryStrategy e =
      if e = JsError.wsError "ROUTE_NOT_FOUND"
          ∨ e = JsError.wsError "HANDLER_NOT_FOUND"
          ∨ e = JsError.wsError "SERVER_NOT_AVAILABLE"
          ∨ e = JsError.wsError "CONNECTION_LIMIT_EXCEEDED"
        then RecoveryStrategy.closeConnection
        else RecoveryStrategy.terminateConnection := by
  cases e with
  | plainError => simp [getRecoveryStrategy]
  | wsError code =>
      by_cases h1 : code = "ROUTE_NOT_FOUND"
      · simp [getRecoveryStrategy, h1]
      · by_cases h2 : code = "HANDLER_NOT_FOUND"
        · simp [getRecoveryStrategy, h1, h2]
        · by_cases h3 : code = "MODULE_IMPORT_ERROR"
          · simp [getRecoveryStrategy, h1, h2, h3]
          · by_cases h4 : code = "HANDLER_EXECUTION_ERROR"
            · simp [getRecoveryStrategy, h1, h2, h3, h4]
            · by_cases h5 : code = "SERVER_NOT_AVAILABLE"
              · simp [getRecoveryStrategy, h1, h2, h3, h4, h5]
              · by_cases h6 : code = "CONNECTION_LIMIT_EXCEEDED"
                · simp [getRecoveryStrategy, h1, h2, h3, h4, h5, h6]
                · simp [getRecoveryStrategy, h1, h2, h3, h4, h5, h6]

/- ===== Rate limiter (rate-limiter.ts, WebSocketRateLimiter) ===== -/

/-- Configuration of a WebSocketRateLimiter (windowMs, maxRequests). -/
structure RateLimitConfig where
  windowMs : Int
  maxRequests : Nat
  deriving DecidableEq

/-- The info record returned by isAllowed. -/
structure RateLimitInfo where
  limit : Nat
  current : Nat
  remaining : Nat
  resetTime : Int
  deriving DecidableEq

/-- Result of one isAllowed check: the verdict, the updated timestamp bucket
stored back into the map, and the info record. -/
structure RateCheck where
  allowed : Bool
  bucket : List Int
  info : RateLimitInfo
  deriving DecidableEq

/-- Shallow embedding of WebSocketRateLimiter.isAllowed for one key: drop the
recorded timestamps at or before now minus windowMs, admit when the remaining
count is strictly below maxRequests, and append the current time only on
admission.  Subtractions on Nat mirror the Math.max(0, x) guards of the
source. -/
def isAllowed (cfg : RateLimitConfig) (bucket : List Int) (now : Int) : RateCheck :=
  let windowStart := now - cfg.windowMs
  let requestTimes := bucket.filter (fun t => decide (windowStart < t))
  let current := requestTimes.length
  let allowed := decide (current < cfg.maxRequests)
  let info0 : RateLimitInfo :=
    { limit := cfg.maxRequests
      current := current
      remaining := cfg.maxRequests - current
      resetTime :=
        match requestTimes.head? with
        | some t0 => t0 + cfg.windowMs
        | none => now + cfg.windowMs }
  if allowed then
    { allowed := true
      bucket := requestTimes ++ [now]
      info := { info0 with current := current + 1, remaining := info0.remaining - 1 } }
  else
    { allowed := false, bucket := requestTimes, info := info0 }

/-- Run the limiter over a sequence of check times for a single key, starting
from a given stored bucket; returns the final bucket and the list of admitted
times. -/
def runLimiter (cfg : RateLimitConfig) (bucket : List Int) : List Int → List Int × List Int
  | [] => (bucket, [])
  | now :: rest =>
      let c := isAllowed cfg bucket now
      let r := runLimiter cfg c.bucket rest
      (r.1, (if c.allowed then [now] else []) ++ r.2)

theorem filter_sublist_mono {α : Type} {p q : α → Bool} :
    ∀ (l : List α), (∀ a ∈ l, p a = true → q a = true) →
      List.Sublist (l.filter p) (l.filter q) := by
  intro l
  induction l with
  | nil => intro _; simp
  | cons a tl ih =>
      intro h
      have htl : ∀ b ∈ tl, p b = true → q b = true := by
        intro b hb; exact h b (List.mem_cons_of_mem a hb)
      by_cases hp : p a = true
      · have hq : q a = true := h a (List.mem_cons_self a tl) hp
        simpa [List.filter_cons, hp, hq] using List.Sublist.cons₂ a (ih htl)
      · rw [List.filter_cons, List.filter_cons]
        simp only [Bool.not_eq_true] at hp
        rw [hp]
        by_cases hq : q a = true
        · rw [hq]
          simpa using List.Sublist.cons a (ih htl)
        · simp only [Bool.not_eq_true] at hq
          rw [hq]
          simpa using ih htl

theorem filter_absorb {α : Type} {p q : α → Bool} :
    ∀ (l : List α), (∀ a ∈ l, q a = true → p a = true) →
      (l.filter p).filter q = l.filter q := by
  intro l
  induction l with
  | nil => intro _; simp
  | cons a tl ih =>
      intro h
      have htl : ∀ b ∈ tl, q b = true → p b = true := by
        intro b hb; exact h b (List.mem_cons_of_mem a hb)
      by_cases hp : p a = true
      · by_cases hq : q a = true
        · simp [List.filter_cons, hp, hq, ih htl]
        · simp only [Bool.not_eq_true] at hq
          simp [List.filter_cons, hp, hq, ih htl]
      · have hq : q a = false := by
          by_contra hcon
          simp only [Bool.not_eq_false] at hcon
          exact hp (h a (List.mem_cons_self a tl) hcon)
        simp only [Bool.not_eq_true] at hp
        simp [List.filter_cons, hp, hq, ih htl]

theorem isAllowed_bucket_eq (cfg : RateLimitConfig) (bucket : List Int) (now : Int) :
    (isAllowed cfg bucket now).bucket =
      bucket.filter (fun t => decide (now - cfg.windowMs < t))
        ++ (if (isAllowed cfg bucket now).allowed then [now] else []) := by
  unfold isAllowed
  by_cases h : (bucket.filter (fun t => decide (now - cfg.windowMs < t))).length
      < cfg.maxRequests <;>
    simp [h]

theorem isAllowed_allowed_eq (cfg : RateLimitConfig) (bucket : List Int) (now : Int) :
    (isAllowed cfg bucket now).allowed =
      decide ((bucket.filter (fun t => decide (now - cfg.windowMs < t))).length
        < cfg.maxRequests) := by
  unfold isAllowed
  by_cases h : (bucket.filter (fun t => decide (now - cfg.windowMs < t))).length
      < cfg.maxRequests <;>
    simp [h]

theorem runLimiter_cons (cfg : RateLimitConfig) (bucket : List Int) (now : Int)
    (rest : List Int) :
    runLimiter cfg bucket (now :: rest) =
      ((runLimiter cfg (isAllowed cfg bucket now).bucket rest).1,
        (if (isAllowed cfg bucket now).allowed then [now] else [])
          ++ (runLimiter cfg (isAllowed cfg bucket now).bucket rest).2) := rfl

theorem runLimiter_bound_aux (cfg : RateLimitConfig) (hw : 0 < cfg.windowMs) :
    ∀ (ts bucket A : List Int) (cur : Int),
      List.Chain (· ≤ ·) cur ts →
      (∀ t ∈ A, t ≤ cur) →
      List.Sublist (A.filter (fun t => decide (cur - cfg.windowMs < t))) bucket →
      (∀ T : Int,
        (A.filter (fun t => decide (T - cfg.windowMs < t ∧ t ≤ T))).length
          ≤ cfg.maxRequests) →
      ∀ T : Int,
        ((A ++ (runLimiter cfg bucket ts).2).filter
            (fun t => decide (T - cfg.windowMs < t ∧ t ≤ T))).length
          ≤ cfg.maxRequests := by
  intro ts
  induction ts with
  | nil =>
      intro bucket A cur hch hA hInv hB T
      simpa [runLimiter] using hB T
  | cons now rest ih =>
      intro bucket A cur hch hA hInv hB T
      rw [List.chain_cons] at hch
      obtain ⟨hcn, hrest⟩ := hch
      have hAnow : ∀ t ∈ A, t ≤ now := fun t ht => le_trans (hA t ht) hcn
      have habsorb :
          (A.filter (fun t => decide (cur - cfg.windowMs < t))).filter
              (fun t => decide (now - cfg.windowMs < t))
            = A.filter (fun t => decide (now - cfg.windowMs < t)) := by
        apply filter_absorb
        intro a _ hq
        have hlt : now - cfg.windowMs < a := of_decide_eq_true hq
        have : cur - cfg.windowMs ≤ now - cfg.windowMs := by omega
        exact decide_eq_true_eq.mpr (by omega)
      have hInvNow :
          List.Sublist (A.filter (fun t => decide (now - cfg.windowMs < t)))
            (bucket.filter (fun t => decide (now - cfg.windowMs < t))) := by
        rw [← habsorb]
        exact List.Sublist.filter _ hInv
      rw [runLimiter_cons]
      by_cases hAll : (isAllowed cfg bucket now).allowed = true
      · -- admitted: the time now is appended to both the bucket and the output
        have hlt : (bucket.filter (fun t => decide (now - cfg.windowMs < t))).length
            < cfg.maxRequests := by
          have := isAllowed_allowed_eq cfg bucket now
          rw [hAll] at this
          exact of_decide_eq_true this.symm
        have hbkt : (isAllowed cfg bucket now).bucket =
            bucket.filter (fun t => decide (now - cfg.windowMs < t)) ++ [now] := by
          rw [isAllowed_bucket_eq, hAll]
          simp
        have goalEq :
            A ++ ((if (isAllowed cfg bucket now).allowed then [now] else [])
                ++ (runLimiter cfg (isAllowed cfg bucket now).bucket rest).2)
              = (A ++ [now]) ++ (runLimiter cfg (isAllowed cfg bucket now).bucket rest).2 := by
          rw [hAll]
          simp
        simp only [goalEq]
        apply ih ((isAllowed cfg bucket now).bucket) (A ++ [now]) now hrest
        · intro t ht
          rcases List.mem_append.mp ht with h1 | h1
          · exact hAnow t h1
          · simp at h1
            omega
        · rw [hbkt, List.filter_append]
          have hnowlt : now - cfg.windowMs < now := by omega
          have hnowin : ([now].filter (fun t => decide (now - cfg.windowMs < t))) = [now] := by
            simp [List.filter, hnowlt]
          rw [hnowin]
          exact List.Sublist.append hInvNow (List.Sublist.refl [now])
        · intro T2
          rw [List.filter_append]
          by_cases hin : (T2 - cfg.windowMs < now ∧ now ≤ T2)
          · have hone : ([now].filter (fun t => decide (T2 - cfg.windowMs < t ∧ t ≤ T2)))
                = [now] := by
              simp [List.filter, hin]
            rw [hone]
            have hsub2 : List.Sublist
                (A.filter (fun t => decide (T2 - cfg.windowMs < t ∧ t ≤ T2)))
                (A.filter (fun t => decide (now - cfg.windowMs < t))) := by
              apply filter_sublist_mono
              intro a _ hq
              have hq2 := of_decide_eq_true hq
              exact decide_eq_true_eq.mpr (by omega)
            have hlen2 := le_trans (List.Sublist.length_le hsub2)
              (List.Sublist.length_le hInvNow)
            rw [List.length_append]
            simp only [List.length_singleton]
            omega
          · have hzero : ([now].filter (fun t => decide (T2 - cfg.windowMs < t ∧ t ≤ T2)))
                = [] := by
              simp [List.filter, hin]
            rw [hzero, List.append_nil]
            exact hB T2
      · -- rejected: nothing appended, the bucket is only trimmed
        simp only [Bool.not_eq_true] at hAll
        have hbkt : (isAllowed cfg bucket now).bucket =
            bucket.filter (fun t => decide (now - cfg.windowMs < t)) := by
          rw [isAllowed_bucket_eq, hAll]
          simp
        have goalEq :
            A ++ ((if (isAllowed cfg bucket now).allowed then [now] else [])
                ++ (runLimiter cfg (isAllowed cfg bucket now).bucket rest).2)
              = A ++ (runLimiter cfg (isAllowed cfg bucket now).bucket rest).2 := by
          rw [hAll]
          simp
        simp only [goalEq]
        apply ih ((isAllowed cfg bucket now).bucket) A now hrest hAnow
        · rw [hbkt]
          exact hInvNow
        · exact hB

/-- C5: for one (route, client identity) key, each isAllowed check keeps only
the timestamps strictly inside the last windowMs, admits exactly when the
remaining count is strictly below maxRequests, appends the current time only
on admission, and consequently any monotone sequence of checks gets at most
maxRequests admissions inside every rolling window of length windowMs. -/
theorem rate_limiter_sliding_window :
    (∀ (cfg : RateLimitConfig) (bucket : List Int) (now : Int),
      (isAllowed cfg bucket now).bucket =
          bucket.filter (fun t => decide (now - cfg.windowMs < t))
            ++ (if (isAllowed cfg bucket now).allowed then [now] else [])
        ∧ (isAllowed cfg bucket now).allowed =
            decide ((bucket.filter (fun t => decide (now - cfg.windowMs < t))).length
              < cfg.maxRequests))
    ∧ (∀ (cfg : RateLimitConfig) (ts : List Int) (T : Int),
        0 < cfg.windowMs → List.Chain' (· ≤ ·) ts →
        ((runLimiter cfg [] ts).2.filter
            (fun t => decide (T - cfg.windowMs < t ∧ t ≤ T))).length
          ≤ cfg.maxRequests) := by
  constructor
  · intro cfg bucket now
    exact ⟨isAllowed_bucket_eq cfg bucket now, isAllowed_allowed_eq cfg bucket now⟩
  · intro cfg ts T hw hch
    cases ts with
    | nil => simp [runLimiter]
    | cons a rest =>
        have h2 : List.Chain (· ≤ ·) a rest := hch
        have hchain : List.Chain (· ≤ ·) a (a :: rest) := List.Chain.cons (le_refl a) h2
        have := runLimiter_bound_aux cfg hw (a :: rest) [] [] a hchain
          (by intro t ht; simp at ht) (by simp) (by intro T2; simp) T
        simpa using this

/-- Witness for rate_limiter_sliding_window: three monotone checks against a
limit of 2 per 1000 ms admit at most 2 requests in the window ending at 900. -/
theorem rate_limiter_sliding_window_witness :
    ((runLimiter { windowMs := 1000, maxRequests := 2 } [] [0, 100, 900]).2.filter
        (fun t => decide ((900 : Int) - 1000 < t ∧ t ≤ 900))).length ≤ 2 :=
  rate_limiter_sliding_window.2 { windowMs := 1000, maxRequests := 2 } [0, 100, 900] 900
    (by decide)
    (List.Chain.cons (by decide) (List.Chain.cons (by decide) List.Chain.nil))

/- ===== Circuit breaker (route-resolver.ts, RouteCircuitBreaker) ===== -/

/-- Breaker states of route-resolver.ts (enum CircuitState). -/
inductive CircuitState
  | closed
  | open
  | halfOpen
  deriving DecidableEq

/-- Configuration of a RouteCircuitBreaker. -/
structure CircuitBreakerConfig where
  failureThreshold : Nat
  resetTimeout : Int
  monitoringWindow : Int
  successThreshold : Nat
  deriving DecidableEq

/-- Mutable fields of a RouteCircuitBreaker. -/
structure Breaker where
  state : CircuitState
  currentFailures : Nat
  totalFailures : Nat
  totalSuccesses : Nat
  lastFailureTime : Option Int
  lastSuccessTime : Option Int
  totalRequests : Nat
  failureWindow : List Int
  consecutiveSuccessesInHalfOpen : Nat
  deriving DecidableEq

/-- Shallow embedding of RouteCircuitBreaker.cleanupOldFailures: prune the
sliding failure window to the monitoring window and recompute the current
failure count from it. -/
def cleanupOldFailures (cfg : CircuitBreakerConfig) (now : Int) (b : Breaker) : Breaker :=
  let w := b.failureWindow.filter (fun t => decide (now - cfg.monitoringWindow < t))
  { b with failureWindow := w, currentFailures := w.length }

/-- Shallow embedding of RouteCircuitBreaker.shouldAttemptReset, including
the JavaScript falsy guard on lastFailureTime: both a missing timestamp and
the (falsy) timestamp 0 make it return false, so a breaker whose last failure
was recorded at clock value 0 never attempts recovery. -/
def shouldAttemptReset (cfg : CircuitBreakerConfig) (now : Int) (b : Breaker) : Bool :=
  match b.lastFailureTime with
  | none => false
  | some t => if t = 0 then false else decide (cfg.resetTimeout ≤ now - t)

/-- Shallow embedding of RouteCircuitBreaker.canExecute: prune the window,
then allow in CLOSED and HALF_OPEN; in OPEN flip to HALF_OPEN and allow one
probe once the reset timeout has elapsed since the last failure. -/
def canExecute (cfg : CircuitBreakerConfig) (now : Int) (b : Breaker) : Bool × Breaker :=
  let b1 := cleanupOldFailures cfg now b
  match b1.state with
  | CircuitState.closed => (true, b1)
  | CircuitState.open =>
      if shouldAttemptReset cfg now b1 then
        (true, { b1 with state := CircuitState.halfOpen, consecutiveSuccessesInHalfOpen := 0 })
      else
        (false, b1)
  | CircuitState.halfOpen => (true, b1)

/-- Shallow embedding of RouteCircuitBreaker.reset. -/
def resetBreaker (b : Breaker) : Breaker :=
  { b with
      state := CircuitState.closed
      currentFailures := 0
      consecutiveSuccessesInHalfOpen := 0
      failureWindow := [] }

/-- Shallow embedding of RouteCircuitBreaker.recordSuccess. -/
def recordSuccess (cfg : CircuitBreakerConfig) (now : Int) (b : Breaker) : Breaker :=
  let b1 := { b with
      totalRequests := b.totalRequests + 1
      totalSuccesses := b.totalSuccesses + 1
      lastSuccessTime := some now }
  match b1.state with
  | CircuitState.halfOpen =>
      let b2 := { b1 with
          consecutiveSuccessesInHalfOpen := b1.consecutiveSuccessesInHalfOpen + 1 }
      if cfg.successThreshold ≤ b2.consecutiveSuccessesInHalfOpen then resetBreaker b2 else b2
  | CircuitState.closed =>
      { b1 with currentFailures := b1.currentFailures - 1 }
  | CircuitState.open => b1

/-- Shallow embedding of RouteCircuitBreaker.recordFailure: push the failure
timestamp, prune the window (which recomputes currentFailures from it), then
open the circuit from CLOSED when the threshold is reached and always from
HALF_OPEN. -/
def recordFailure (cfg : CircuitBreakerConfig) (now : Int) (b : Breaker) : Breaker :=
  let b1 := { b with
      totalRequests := b.totalRequests + 1
      totalFailures := b.totalFailures + 1
      currentFailures := b.currentFailures + 1
      lastFailureTime := some now
      failureWindow := b.failureWindow ++ [now] }
  let b2 := cleanupOldFailures cfg now b1
  match b2.state with
  | CircuitState.closed =>
      if cfg.failureThreshold ≤ b2.currentFailures then
        { b2 with state := CircuitState.open }
      else b2
  | CircuitState.halfOpen => { b2 with state := CircuitState.open }
  | CircuitState.open => b2

/-- C6: while a breaker is OPEN with a truthy recorded last failure time (a
Date.now() value, so nonzero), canExecute returns false for every call made
before resetTimeout has elapsed since that failure, and the first call at or
after that point returns true and flips the state to HALF_OPEN. -/
theorem open_breaker_gate (cfg : CircuitBreakerConfig) (b : Breaker) (now t : Int)
    (hs : b.state = CircuitState.open) (hf : b.lastFailureTime = some t)
    (hnz : t ≠ 0) :
    (now - t < cfg.resetTimeout →
        (canExecute cfg now b).1 = false
        ∧ (canExecute cfg now b).2.state = CircuitState.open)
    ∧ (cfg.resetTimeout ≤ now - t →
        (canExecute cfg now b).1 = true
        ∧ (canExecute cfg now b).2.state = CircuitState.halfOpen) := by
  constructor
  · intro h
    have hdec : decide (cfg.resetTimeout ≤ now - t) = false := by
      simp only [decide_eq_false_iff_not]
      omega
    constructor
    · simp [canExecute, cleanupOldFailures, shouldAttemptReset, hs, hf, hnz, hdec]
    · simp [canExecute, cleanupOldFailures, shouldAttemptReset, hs, hf, hnz, hdec]
  · intro h
    have hdec : decide (cfg.resetTimeout ≤ now - t) = true := by
      simp only [decide_eq_true_eq]
      omega
    constructor
    · simp [canExecute, cleanupOldFailures, shouldAttemptReset, hs, hf, hnz, hdec]
    · simp [canExecute, cleanupOldFailures, shouldAttemptReset, hs, hf, hnz, hdec]

/-- Witness for open_breaker_gate: an OPEN breaker whose last failure was at
time 3 rejects a call at time 10 under a reset timeout of 60000. -/
theorem open_breaker_gate_witness :
    (canExecute
        { failureThreshold := 5, resetTimeout := 60000
          monitoringWindow := 300000, successThreshold := 3 } 10
        { state := CircuitState.open, currentFailures := 5, totalFailures := 5
          totalSuccesses := 0, lastFailureTime := some 3, lastSuccessTime := none
          totalRequests := 5, failureWindow := [3], consecutiveSuccessesInHalfOpen := 0 }).1
      = false
    ∧ (canExecute
        { failureThreshold := 5, resetTimeout := 60000
          monitoringWindow := 300000, successThreshold := 3 } 10
        { state := CircuitState.open, currentFailures := 5, totalFailures := 5
          totalSuccesses := 0, lastFailureTime := some 3, lastSuccessTime := none
          totalRequests := 5, failureWindow := [3], consecutiveSuccessesInHalfOpen := 0 }).2.state
      = CircuitState.open :=
  (open_breaker_gate
      { failureThreshold := 5, resetTimeout := 60000
        monitoringWindow := 300000, successThreshold := 3 }
      { state := CircuitState.open, currentFailures := 5, totalFailures := 5
        totalSuccesses := 0, lastFailureTime := some 3, lastSuccessTime := none
        totalRequests := 5, failureWindow := [3], consecutiveSuccessesInHalfOpen := 0 }
      10 3 rfl rfl (by decide)).1 (by decide)

theorem recordFailure_closed_state (cfg : CircuitBreakerConfig) (now : Int) (b : Breaker)
    (hs : b.state = CircuitState.closed) :
    (recordFailure cfg now b).state =
      if cfg.failureThreshold ≤
          ((b.failureWindow ++ [now]).filter
              (fun u => decide (now - cfg.monitoringWindow < u))).length
        then CircuitState.open else CircuitState.closed := by
  by_cases h : cfg.failureThreshold ≤
      ((b.failureWindow ++ [now]).filter
          (fun u => decide (now - cfg.monitoringWindow < u))).length
  · rw [if_pos h]
    rw [List.filter_append, List.length_append] at h
    simp [recordFailure, cleanupOldFailures, hs, List.filter_append, h]
  · rw [if_neg h]
    rw [List.filter_append, List.length_append] at h
    simp [recordFailure, cleanupOldFailures, hs, List.filter_append, h]

/-- C10: whether recordFailure opens a CLOSED breaker depends only on the
timestamps in the sliding failure window: it opens exactly when the pruned
window including the new failure reaches failureThreshold, and the decrement
recordSuccess applies to the failure counter in CLOSED has no effect on that
decision. -/
theorem closed_breaker_opens_by_window_only (cfg : CircuitBreakerConfig) (b : Breaker)
    (now : Int) (hs : b.state = CircuitState.closed) :
    ((recordFailure cfg now b).state = CircuitState.open ↔
        cfg.failureThreshold ≤
          ((b.failureWindow ++ [now]).filter
              (fun u => decide (now - cfg.monitoringWindow < u))).length)
    ∧ ∀ t : Int,
        (recordFailure cfg now (recordSuccess cfg t b)).state
          = (recordFailure cfg now b).state := by
  have hmain := recordFailure_closed_state cfg now b hs
  constructor
  · rw [hmain]
    by_cases h : cfg.failureThreshold ≤
        ((b.failureWindow ++ [now]).filter
            (fun u => decide (now - cfg.monitoringWindow < u))).length
    · simp [h]
    · simp [h]
  · intro t
    have hsuccState : (recordSuccess cfg t b).state = CircuitState.closed := by
      simp [recordSuccess, hs]
    have hsuccWindow : (recordSuccess cfg t b).failureWindow = b.failureWindow := by
      simp [recordSuccess, hs]
    rw [hmain, recordFailure_closed_state cfg now (recordSuccess cfg t b) hsuccState,
      hsuccWindow]

/-- Witness for closed_breaker_opens_by_window_only: a CLOSED breaker with
four recent windowed failures opens on a fifth failure under threshold 5. -/
theorem closed_breaker_opens_by_window_only_witness :
    (recordFailure
        { failureThreshold := 5, resetTimeout := 60000
          monitoringWindow := 300000, successThreshold := 3 } 100
        { state := CircuitState.closed, currentFailures := 0, totalFailures := 4
          totalSuccesses := 0, lastFailureTime := some 40, lastSuccessTime := none
          totalRequests := 4, failureWindow := [10, 20, 30, 40]
          consecutiveSuccessesInHalfOpen := 0 }).state
      = CircuitState.open :=
  (closed_breaker_opens_by_window_only
      { failureThreshold := 5, resetTimeout := 60000
        monitoringWindow := 300000, successThreshold := 3 }
      { state := CircuitState.closed, currentFailures := 0, totalFailures := 4
        totalSuccesses := 0, lastFailureTime := some 40, lastSuccessTime := none
        totalRequests := 4, failureWindow := [10, 20, 30, 40]
        consecutiveSuccessesInHalfOpen := 0 }
      100 rfl).1.mpr (by decide)

/- ===== Connection tracker (connection-tracker.ts) ===== -/

/-- Shallow embedding of ConnectionTracker.isRapidDuplicate: a second upgrade
for the same (URL, remote address) key strictly inside windowMs of a recorded
(truthy, so nonzero) timestamp is a duplicate; otherwise the current time is
recorded under the key.  The map argument models the recentUpgrades Map. -/
def isRapidDuplicate (m : List (String × Int)) (url : String)
    (remoteAddress : Option String) (now : Int) (windowMs : Int) :
    Bool × List (String × Int) :=
  let requestKey := url ++ ":" ++ (match remoteAddress with
    | some a => a
    | none => "undefined")
  match mapGet m requestKey with
  | some lastRequest =>
      if lastRequest ≠ 0 ∧ now - lastRequest < windowMs then
        (true, m)
      else
        (false, mapSet m requestKey now)
  | none => (false, mapSet m requestKey now)

/-- Events that can reach the per-connection observers installed by the
upgrade orchestrator: the socket close event, the socket error event, and the
30 s expiry that removes the id from the cleanup-once set again. -/
inductive ConnEvent
  | closeEvt
  | errorEvt
  | expireEvt
  deriving DecidableEq

/-- Observer-visible state for one accepted connection: the tracker's
cleanup-once set, how often the user cleanup ran, whether the once-close
listeners have already fired, the heartbeat timer, and the in-flight mark of
the raw socket. -/
structure ConnState where
  cleanedUp : List String
  cleanupRuns : Nat
  closeConsumed : Bool
  heartbeatArmed : Bool
  socketInFlight : Bool
  deriving DecidableEq

/-- One event step of the per-connection observers installed by handleUpgrade
in setup.ts: on the first close event both once-listeners fire in
registration order (the cleanup listener guarded by the tracker's
cleanup-once set, then the heartbeat listener), later close events are
dropped by the once semantics, error events only log, and an expiry removes
the id from the cleanup-once set after the grace period. -/
def connStep (id : String) (hasCleanupFn : Bool) (s : ConnState) : ConnEvent → ConnState
  | ConnEvent.closeEvt =>
      if s.closeConsumed then s
      else
        let s1 := { s with closeConsumed := true }
        let s2 :=
          if s1.cleanedUp.contains id then s1
          else
            let s3 := { s1 with cleanedUp := id :: s1.cleanedUp, socketInFlight := false }
            if hasCleanupFn then { s3 with cleanupRuns := s3.cleanupRuns + 1 } else s3
        if s2.cleanedUp.contains id then s2 else { s2 with heartbeatArmed := false }
  | ConnEvent.errorEvt => s
  | ConnEvent.expireEvt => { s with cleanedUp := s.cleanedUp.erase id }

/-- Run the per-connection observers over a sequence of events. -/
def runConnEvents (id : String) (hasCleanupFn : Bool) (s : ConnState) :
    List ConnEvent → ConnState
  | [] => s
  | e :: es => runConnEvents id hasCleanupFn (connStep id hasCleanupFn s e) es

theorem connStep_invariant (id : String) (hasCleanupFn : Bool) (s : ConnState)
    (e : ConnEvent)
    (h : s.cleanupRuns ≤ if s.closeConsumed then 1 else 0) :
    (connStep id hasCleanupFn s e).cleanupRuns
      ≤ if (connStep id hasCleanupFn s e).closeConsumed then 1 else 0 := by
  cases e with
  | errorEvt => exact h
  | expireEvt => simpa [connStep] using h
  | closeEvt =>
      by_cases hc : s.closeConsumed
      · simpa [connStep, hc] using h
      · have h0 : s.cleanupRuns = 0 := by
          simpa [hc] using h
        by_cases hm : id ∈ s.cleanedUp
        · simp [connStep, hc, hm, h0]
        · by_cases hf : hasCleanupFn
          · simp [connStep, hc, hm, hf, h0]
          · simp [connStep, hc, hm, hf, h0]

theorem runConnEvents_invariant (id : String) (hasCleanupFn : Bool) :
    ∀ (events : List ConnEvent) (s : ConnState),
      s.cleanupRuns ≤ (if s.closeConsumed then 1 else 0) →
      (runConnEvents id hasCleanupFn s events).cleanupRuns ≤ 1 := by
  intro events
  induction events with
  | nil =>
      intro s h
      by_cases hc : s.closeConsumed
      · simpa [runConnEvents, hc] using h
      · have : s.cleanupRuns = 0 := by simpa [hc] using h
        simp [runConnEvents, this]
  | cons e es ih =>
      intro s h
      exact ih (connStep id hasCleanupFn s e) (connStep_invariant id hasCleanupFn s e h)

/-- C3: for every connection id the user cleanup callback runs at most once,
whatever interleaving of close, error and cleanup-expiry events hits the
observers of that connection, and whatever the tracker's cleanup-once set
already contains. -/
theorem user_cleanup_at_most_once (id : String) (hasCleanupFn : Bool)
    (cleaned0 : List String) (events : List ConnEvent) :
    (runConnEvents id hasCleanupFn
        { cleanedUp := cleaned0, cleanupRuns := 0, closeConsumed := false
          heartbeatArmed := true, socketInFlight := true } events).cleanupRuns ≤ 1 :=
  runConnEvents_invariant id hasCleanupFn events
    { cleanedUp := cleaned0, cleanupRuns := 0, closeConsumed := false
      heartbeatArmed := true, socketInFlight := true } (by simp)

/- ===== Connection handler cache (route-handler.ts) ===== -/

/-- Possible behaviours of one invocation of a user SOCKET factory: it can
throw, return a non-function value, or return a connection handler (handlers
are numbered). -/
inductive FactoryOutcome
  | throwsErr
  | nonFunction
  | returnsFn (h : Nat)
  deriving DecidableEq

/-- True when the invocation returns a connection handler. -/
def FactoryOutcome.isSuccess : FactoryOutcome → Bool
  | FactoryOutcome.returnsFn _ => true
  | _ => false

/-- Result of getOrInitializeConnectionHandler: the handler handed back (none
models the null return on a throw or a non-function value), the updated
connectionHandlerCache, and whether the factory was invoked by this call. -/
structure InitResult where
  handler : Option Nat
  cache : List (String × Nat)
  invoked : Bool
  deriving DecidableEq

/-- Shallow embedding of route-handler.ts getOrInitializeConnectionHandler:
return the cached handler without invoking the factory; on a cache miss
invoke the factory once, cache the result only when it is a function, and
return null otherwise (caching nothing). -/
def getOrInitializeConnectionHandler (cache : List (String × Nat)) (routePath : String)
    (outcome : FactoryOutcome) : InitResult :=
  match mapGet cache routePath with
  | some h => { handler := some h, cache := cache, invoked := false }
  | none =>
      match outcome with
      | FactoryOutcome.returnsFn h =>
          { handler := some h, cache := mapSet cache routePath h, invoked := true }
      | _ => { handler := none, cache := cache, invoked := true }

/-- Run a sequence of getOrInitializeConnectionHandler calls for one route;
the i-th list element is the outcome the factory would produce if the i-th
call actually invoked it.  Returns the final cache and the number of factory
invocations performed. -/
def runFactoryCalls (routePath : String) (cache : List (String × Nat)) :
    List FactoryOutcome → List (String × Nat) × Nat
  | [] => (cache, 0)
  | o :: os =>
      let r := getOrInitializeConnectionHandler cache routePath o
      let rest := runFactoryCalls routePath r.cache os
      (rest.1, (if r.invoked then 1 else 0) + rest.2)

/-- Counterexample for C2: when the factory for a route throws on its first
invocation, a second upgrade for the same route invokes it a second time, so
the factory is not invoked at most once per process lifetime. -/
theorem factory_reinvoked_after_throw :
    (runFactoryCalls "/api/bad" []
        [FactoryOutcome.throwsErr, FactoryOutcome.throwsErr]).2 = 2
    ∧ ¬ (runFactoryCalls "/api/bad" []
        [FactoryOutcome.throwsErr, FactoryOutcome.throwsErr]).2 ≤ 1 := by
  constructor
  · rfl
  · decide

theorem runFactoryCalls_cached :
    ∀ (outs : List FactoryOutcome) (routePath : String) (cache : List (String × Nat))
      (h0 : Nat), mapGet cache routePath = some h0 →
      runFactoryCalls routePath cache outs = (cache, 0) := by
  intro outs
  induction outs with
  | nil =>
      intro routePath cache h0 h
      rfl
  | cons o os ih =>
      intro routePath cache h0 h
      simp [runFactoryCalls, getOrInitializeConnectionHandler, h, ih routePath cache h0 h]

/-- C2 amended: the factory for a route is never invoked again once a handler
is cached for the route, and starting from an empty cache the number of
invocations over any call sequence is exactly the number of leading failed
invocations plus the one following successful invocation (capped by the
number of calls); an invocation that throws or returns a non-function caches
nothing, so the next call invokes the factory again. -/
theorem factory_once_after_success :
    (∀ (routePath : String) (cache : List (String × Nat)) (h : Nat)
        (outs : List FactoryOutcome),
      mapGet cache routePath = some h →
      runFactoryCalls routePath cache outs = (cache, 0))
    ∧ (∀ (routePath : String) (outs : List FactoryOutcome),
        (runFactoryCalls routePath [] outs).2
          = min outs.length
              ((outs.takeWhile (fun o => ! o.isSuccess)).length + 1)) := by
  constructor
  · intro routePath cache h outs hc
    exact runFactoryCalls_cached outs routePath cache h hc
  · intro routePath outs
    induction outs with
    | nil => simp [runFactoryCalls]
    | cons o os ih =>
        cases o with
        | returnsFn h =>
            have hcached := runFactoryCalls_cached os routePath [(routePath, h)] h
              (by simp [mapGet])
            simp [runFactoryCalls, getOrInitializeConnectionHandler, mapGet, mapSet,
              FactoryOutcome.isSuccess, hcached, List.takeWhile]
        | throwsErr =>
            simp [runFactoryCalls, getOrInitializeConnectionHandler, mapGet,
              FactoryOutcome.isSuccess, List.takeWhile, ih]
            omega
        | nonFunction =>
            simp [runFactoryCalls, getOrInitializeConnectionHandler, mapGet,
              FactoryOutcome.isSuccess, List.takeWhile, ih]
            omega

/-- Witness for factory_once_after_success: with a handler already cached for
the route, a further call performs no factory invocation and leaves the cache
unchanged. -/
theorem factory_once_after_success_witness :
    runFactoryCalls "/r" [("/r", 7)] [FactoryOutcome.throwsErr] = ([("/r", 7)], 0) :=
  factory_once_after_success.1 "/r" [("/r", 7)] 7 [FactoryOutcome.throwsErr] (by decide)

/- ===== Upgrade pipeline (setup.ts handleUpgrade, route-resolver.ts) ===== -/

/-- Errors thrown by resolveWebSocketRoute in route-resolver.ts. -/
inductive WsErrorKind
  | routeNotFound
  | moduleImport
  | handlerNotFound
  deriving DecidableEq

/-- Shallow embedding of route-resolver.ts resolveWebSocketRoute.  The
environment is abstracted by the outcome of its three steps: the route-table
match (resolvePathToRoute), whether the module import returned a module, and
whether a SOCKET export was found.  Every failure is thrown (Except.error);
no code path returns null. -/
def resolveWebSocketRoute (routeInfo : Option String) (moduleOk : Bool)
    (hasSocketExport : Bool) : Except WsErrorKind String :=
  match routeInfo with
  | none => Except.error WsErrorKind.routeNotFound
  | some filePath =>
      if moduleOk = false then Except.error WsErrorKind.moduleImport
      else if hasSocketExport = false then Except.error WsErrorKind.handlerNotFound
      else Except.ok filePath

/-- One upgrade event together with the environment behaviour it will meet:
the raw-socket identity, the request URL data, the clock, the route
resolution environment, the factory behaviour, and the per-route rate-limit
rule (none when the route has no rule). -/
structure UpgradeRequest where
  sockId : Nat
  pathname : String
  xForwardedFor : Option String
  xRealIp : Option String
  remoteAddress : Option String
  now : Int
  routeInfo : Option String
  moduleOk : Bool
  hasSocketExport : Bool
  factoryOutcome : FactoryOutcome
  rateLimitRule : Option RateLimitConfig
  deriving DecidableEq

/-- Shallow embedding of the default key generator of rate-limiter.ts: the
first non-empty of the leftmost trimmed X-Forwarded-For token, X-Real-IP, the
socket remote address, or the literal unknown, prefixed with ip and a
colon. -/
def generateKey (r : UpgradeRequest) : String :=
  let fwd := match r.xForwardedFor with
    | some s => ((s.splitOn ",").headD "").trim
    | none => ""
  let ip :=
    if fwd ≠ "" then fwd
    else
      let real := match r.xRealIp with
        | some s => s
        | none => ""
      if real ≠ "" then real
      else
        let addr := match r.remoteAddress with
          | some s => s
          | none => ""
        if addr ≠ "" then addr else "unknown"
  "ip:" ++ ip

/-- The internal-path guard of handleUpgrade (pathname.startsWith of the
reserved Next.js prefix), expressed on the character list of the path. -/
def isInternalNextPath (pathname : String) : Bool :=
  List.isPrefixOf "/_next/".data pathname.data

/-- Process-wide mutable state touched by the upgrade pipeline: the tracker's
in-flight set and recent-upgrades map, the per-route rate-limiter buckets,
the connection handler cache, and the pool's connection map. -/
structure ServerState where
  inFlight : List Nat
  recentUpgrades : List (String × Int)
  limiters : List (String × List (String × List Int))
  handlerCache : List (String × Nat)
  poolEntries : List (String × ConnMeta)
  deriving DecidableEq

/-- How one upgrade event left the admission pipeline. -/
inductive UpgradeOutcome
  | ignoredBusy
  | skippedInternal
  | destroyedRateLimit
  | unhandledRejection (e : WsErrorKind)
  | destroyedNoHandler
  | handshakeDelegated
  deriving DecidableEq

/-- Result of one handleUpgrade run: the final shared state, the admission
outcome, whether socket.destroy was called, and whether the upgrade was
delegated to the framing library. -/
structure UpgradeResult where
  state : ServerState
  outcome : UpgradeOutcome
  socketDestroyed : Bool
  handshakeStarted : Bool
  deriving DecidableEq

/-- Continuation of handleUpgrade after the rate check: route resolution and
connection-handler initialisation.  A thrown resolution error is not caught
anywhere in handleUpgrade, so on that path the socket is neither destroyed
nor removed from the in-flight set (the null-check branch of the source is
unreachable); a null connection handler destroys the socket and unmarks
it. -/
def proceedRoute (st : ServerState) (r : UpgradeRequest) : UpgradeResult :=
  match resolveWebSocketRoute r.routeInfo r.moduleOk r.hasSocketExport with
  | Except.error e =>
      { state := st, outcome := UpgradeOutcome.unhandledRejection e
        socketDestroyed := false, handshakeStarted := false }
  | Except.ok _ =>
      let ir := getOrInitializeConnectionHandler st.handlerCache r.pathname r.factoryOutcome
      match ir.handler with
      | none =>
          { state := { st with handlerCache := ir.cache
                               inFlight := st.inFlight.erase r.sockId }
            outcome := UpgradeOutcome.destroyedNoHandler
            socketDestroyed := true, handshakeStarted := false }
      | some _ =>
          { state := { st with handlerCache := ir.cache }
            outcome := UpgradeOutcome.handshakeDelegated
            socketDestroyed := false, handshakeStarted := true }

/-- Shallow embedding of the handleUpgrade pipeline of setup.ts.  The
isRapidDuplicate call is commented out in the source, so no duplicate check
happens here: the pipeline starts with the in-flight check, then marks the
socket, skips internal paths, runs the rate check when the route has a rule,
and continues with route resolution. -/
def handleUpgrade (st : ServerState) (r : UpgradeRequest) : UpgradeResult :=
  if st.inFlight.contains r.sockId then
    { state := st, outcome := UpgradeOutcome.ignoredBusy
      socketDestroyed := false, handshakeStarted := false }
  else
    let st1 := { st with inFlight := r.sockId :: st.inFlight }
    if isInternalNextPath r.pathname then
      { state := { st1 with inFlight := st1.inFlight.erase r.sockId }
        outcome := UpgradeOutcome.skippedInternal
        socketDestroyed := false, handshakeStarted := false }
    else
      match r.rateLimitRule with
      | some rule =>
          let key := generateKey r
          let buckets := (mapGet st1.limiters r.pathname).getD []
          let bucket := (mapGet buckets key).getD []
          let chk := isAllowed rule bucket r.now
          let st2 := { st1 with
              limiters := mapSet st1.limiters r.pathname (mapSet buckets key chk.bucket) }
          if chk.allowed then proceedRoute st2 r
          else
            { state := { st2 with inFlight := st2.inFlight.erase r.sockId }
              outcome := UpgradeOutcome.destroyedRateLimit
              socketDestroyed := true, handshakeStarted := false }
      | none => proceedRoute st1 r

/-- The empty shared state at process start. -/
def emptyServerState : ServerState :=
  { inFlight := [], recentUpgrades := [], limiters := [], handlerCache := []
    poolEntries := [] }

/-- An upgrade request whose URL matches no route. -/
def upgradeReqNoRoute : UpgradeRequest :=
  { sockId := 7, pathname := "/nope", xForwardedFor := none, xRealIp := none
    remoteAddress := some "1.2.3.4", now := 0, routeInfo := none
    moduleOk := true, hasSocketExport := true
    factoryOutcome := FactoryOutcome.returnsFn 1, rateLimitRule := none }

/-- An upgrade request whose matched route module fails to import. -/
def upgradeReqBadImport : UpgradeRequest :=
  { sockId := 8, pathname := "/broken", xForwardedFor := none, xRealIp := none
    remoteAddress := some "1.2.3.4", now := 0, routeInfo := some "/broken/route"
    moduleOk := false, hasSocketExport := true
    factoryOutcome := FactoryOutcome.returnsFn 1, rateLimitRule := none }

/-- An upgrade request whose matched route module lacks the SOCKET export. -/
def upgradeReqNoExport : UpgradeRequest :=
  { sockId := 9, pathname := "/plain", xForwardedFor := none, xRealIp := none
    remoteAddress := some "1.2.3.4", now := 0, routeInfo := some "/plain/route"
    moduleOk := true, hasSocketExport := false
    factoryOutcome := FactoryOutcome.returnsFn 1, rateLimitRule := none }

/-- C1: evaluation at the failing inputs.  For all three admission failures
during route resolution (no matching route, module import failure, missing
SOCKET export) the resolver throws, handleUpgrade has no catch, and so the
handshake never starts, but the raw socket is NOT destroyed and it REMAINS in
the tracker's in-flight set, contradicting the claim; only the pool part of
the claim holds. -/
theorem admission_route_failure_leaves_socket_tracked :
    ((handleUpgrade emptyServerState upgradeReqNoRoute).outcome
        = UpgradeOutcome.unhandledRejection WsErrorKind.routeNotFound
      ∧ (handleUpgrade emptyServerState upgradeReqNoRoute).socketDestroyed = false
      ∧ (handleUpgrade emptyServerState upgradeReqNoRoute).handshakeStarted = false
      ∧ (handleUpgrade emptyServerState upgradeReqNoRoute).state.inFlight = [7]
      ∧ (handleUpgrade emptyServerState upgradeReqNoRoute).state.poolEntries = [])
    ∧ ((handleUpgrade emptyServerState upgradeReqBadImport).outcome
        = UpgradeOutcome.unhandledRejection WsErrorKind.moduleImport
      ∧ (handleUpgrade emptyServerState upgradeReqBadImport).socketDestroyed = false
      ∧ (handleUpgrade emptyServerState upgradeReqBadImport).state.inFlight = [8])
    ∧ ((handleUpgrade emptyServerState upgradeReqNoExport).outcome
        = UpgradeOutcome.unhandledRejection WsErrorKind.handlerNotFound
      ∧ (handleUpgrade emptyServerState upgradeReqNoExport).socketDestroyed = false
      ∧ (handleUpgrade emptyServerState upgradeReqNoExport).state.inFlight = [9]) := by
  refine ⟨⟨rfl, rfl, rfl, rfl, rfl⟩, ⟨rfl, rfl, rfl⟩, ⟨rfl, rfl, rfl⟩⟩

/-- First of two rapid upgrades for the same (URL, client address) pair. -/
def dupReq1 : UpgradeRequest :=
  { sockId := 1, pathname := "/api/chat", xForwardedFor := none, xRealIp := none
    remoteAddress := some "1.2.3.4", now := 0, routeInfo := some "/api/chat/route"
    moduleOk := true, hasSocketExport := true
    factoryOutcome := FactoryOutcome.returnsFn 42, rateLimitRule := none }

/-- Second upgrade for the same (URL, client address) pair, 500 ms later on a
fresh socket. -/
def dupReq2 : UpgradeRequest :=
  { sockId := 2, pathname := "/api/chat", xForwardedFor := none, xRealIp := none
    remoteAddress := some "1.2.3.4", now := 500, routeInfo := some "/api/chat/route"
    moduleOk := true, hasSocketExport := true
    factoryOutcome := FactoryOutcome.returnsFn 42, rateLimitRule := none }

/-- Counterexample for C8: two upgrades for the same (URL, client address)
pair 500 ms apart are BOTH processed to the handshake by the pipeline, so
more than one upgrade for the pair is processed inside a 1-second window; the
rapid-duplicate squelch is not invoked by the pipeline. -/
theorem rapid_duplicate_processed_twice :
    (handleUpgrade emptyServerState dupReq1).outcome = UpgradeOutcome.handshakeDelegated
    ∧ (handleUpgrade (handleUpgrade emptyServerState dupReq1).state dupReq2).outcome
        = UpgradeOutcome.handshakeDelegated
    ∧ dupReq2.pathname = dupReq1.pathname
    ∧ dupReq2.remoteAddress = dupReq1.remoteAddress
    ∧ dupReq2.now - dupReq1.now < 1000 := by
  refine ⟨rfl, rfl, rfl, rfl, by decide⟩

/-- C8 amended: the tracker's isRapidDuplicate method does flag a second
upgrade for the same (URL, remote address) key strictly inside the window of
a recorded nonzero timestamp, but the pipeline never consults or updates the
recent-upgrades map (the call is commented out), so such duplicates are still
processed; only an upgrade for a socket already in flight is dropped
silently. -/
theorem rapid_dup_detector_unwired :
    (∀ (m : List (String × Int)) (url addr : String) (now w last : Int),
      mapGet m (url ++ ":" ++ addr) = some last → last ≠ 0 → now - last < w →
      (isRapidDuplicate m url (some addr) now w).1 = true)
    ∧ (∀ (st : ServerState) (r : UpgradeRequest),
        (handleUpgrade st r).state.recentUpgrades = st.recentUpgrades)
    ∧ (∀ (st : ServerState) (r : UpgradeRequest),
        st.inFlight.contains r.sockId = true →
        (handleUpgrade st r).outcome = UpgradeOutcome.ignoredBusy) := by
  refine ⟨?_, ?_, ?_⟩
  · intro m url addr now w last hget hnz hwin
    simp [isRapidDuplicate, hget, hnz, hwin]
  · intro st r
    unfold handleUpgrade
    by_cases h1 : st.inFlight.contains r.sockId
    · have h1m : r.sockId ∈ st.inFlight := by simpa using h1
      simp [h1m]
    · simp only [Bool.not_eq_true] at h1
      simp only [h1, Bool.false_eq_true, if_false]
      by_cases h2 : isInternalNextPath r.pathname
      · simp [h2]
      · simp only [Bool.not_eq_true] at h2
        simp only [h2, Bool.false_eq_true, if_false]
        cases hrl : r.rateLimitRule with
        | none =>
            unfold proceedRoute
            cases hres : resolveWebSocketRoute r.routeInfo r.moduleOk r.hasSocketExport with
            | error e => simp
            | ok fp =>
                cases hh : (getOrInitializeConnectionHandler
                    { st with inFlight := r.sockId :: st.inFlight }.handlerCache
                    r.pathname r.factoryOutcome).handler with
                | none => simp [hh]
                | some hd => simp [hh]
        | some rule =>
            by_cases hchk : (isAllowed rule
                ((mapGet ((mapGet { st with inFlight := r.sockId :: st.inFlight }.limiters
                    r.pathname).getD []) (generateKey r)).getD []) r.now).allowed
            · simp only [hchk, if_true]
              unfold proceedRoute
              cases hres : resolveWebSocketRoute r.routeInfo r.moduleOk r.hasSocketExport with
              | error e => simp
              | ok fp =>
                  cases hh : (getOrInitializeConnectionHandler st.handlerCache
                      r.pathname r.factoryOutcome).handler with
                  | none => simp [hh]
                  | some hd => simp [hh]
            · simp only [Bool.not_eq_true] at hchk
              simp [hchk]
  · intro st r h
    have hm : r.sockId ∈ st.inFlight := by simpa using h
    simp [handleUpgrade, hm]

/-- Witness for rapid_dup_detector_unwired: a key recorded at time 100 is
flagged as a duplicate at time 600 under a 1000 ms window. -/
theorem rapid_dup_detector_unwired_witness :
    (isRapidDuplicate [("/api/chat:1.2.3.4", 100)] "/api/chat" (some "1.2.3.4")
        600 1000).1 = true :=
  rapid_dup_detector_unwired.1 [("/api/chat:1.2.3.4", 100)] "/api/chat" "1.2.3.4"
    600 1000 100 (by decide) (by decide) (by decide)

/- ===== Server setup (setup.ts setupWebSocketServer) ===== -/

/-- Environment of one setupWebSocketServer call: the host HTTP server of the
Next.js instance, the identity the WebSocketServer constructor would produce,
and the outcomes of the support and enabled checks. -/
structure SetupInput where
  httpServerId : Nat
  freshWsId : Nat
  supported : Bool
  enabled : Bool
  deriving DecidableEq

/-- Process-wide state touched by setupWebSocketServer: the global WebSocket
server and HTTP server slots of persistent-servers.ts, the connection handler
cache, the host-server listener map, and counters of WebSocketServer
constructions and connection-pool re-initialisations. -/
structure GlobalWsState where
  globalWsServer : Option Nat
  globalHttpServer : Option Nat
  handlerCache : List (String × Nat)
  listenerMap : List (Nat × Nat)
  wsServersCreated : Nat
  poolReinits : Nat
  deriving DecidableEq

/-- Lookup in the listener map keyed by host-server identity. -/
def listenerFor : List (Nat × Nat) → Nat → Option Nat
  | [], _ => none
  | (k, v) :: rest, k0 => if k = k0 then some v else listenerFor rest k0

/-- Shallow embedding of setup.ts setupWebSocketServer: it FIRST clears the
stale global WebSocket server and the connection handler cache
unconditionally, then returns early when support is missing, the feature is
disabled, or (after resolving the global HTTP server slot) the host server
already has a listener; only past those checks does it construct a new
WebSocketServer, re-initialise the pool and attach the upgrade listener. -/
def setupWebSocketServer (inp : SetupInput) (s : GlobalWsState) : GlobalWsState :=
  let s0 := { s with globalWsServer := none, handlerCache := [] }
  if inp.supported = false then s0
  else if inp.enabled = false then s0
  else
    let resolved : Nat × GlobalWsState :=
      match s0.globalHttpServer with
      | some h => (h, s0)
      | none => (inp.httpServerId, { s0 with globalHttpServer := some inp.httpServerId })
    let httpServer := resolved.1
    let s1 := resolved.2
    match listenerFor s1.listenerMap httpServer with
    | some _ => s1
    | none =>
        let s2 := { s1 with
            globalWsServer := some inp.freshWsId
            wsServersCreated := s1.wsServersCreated + 1 }
        let s3 := { s2 with poolReinits := s2.poolReinits + 1 }
        { s3 with listenerMap := (httpServer, inp.freshWsId) :: s3.listenerMap }

/-- A global state in which host server 1 already has a listener attached and
a handler is cached: the situation of a second setup call. -/
def attachedState : GlobalWsState :=
  { globalWsServer := some 10, globalHttpServer := some 1
    handlerCache := [("/a", 5)], listenerMap := [(1, 10)]
    wsServersCreated := 1, poolReinits := 1 }

/-- Counterexample for C9: calling setup again for host server 1, which is
already in the listener map, does NOT leave the state untouched: the global
WebSocket server slot and the connection handler cache are cleared before the
early return, so the call is not free of side effects. -/
theorem double_setup_clears_state :
    setupWebSocketServer
        { httpServerId := 1, freshWsId := 11, supported := true, enabled := true }
        attachedState
      ≠ attachedState
    ∧ (setupWebSocketServer
        { httpServerId := 1, freshWsId := 11, supported := true, enabled := true }
        attachedState).handlerCache = []
    ∧ attachedState.handlerCache = [("/a", 5)]
    ∧ (setupWebSocketServer
        { httpServerId := 1, freshWsId := 11, supported := true, enabled := true }
        attachedState).globalWsServer = none := by
  refine ⟨by decide, rfl, rfl, rfl⟩

/-- C9 amended: when the (resolved) host HTTP server already has an upgrade
listener in the process-wide map, a second setup call attaches no listener,
constructs no new WebSocketServer and re-initialises no pool, but it is not
side-effect free: it returns only after the unconditional up-front clearing
of the global WebSocket server slot and the connection handler cache. -/
theorem double_setup_early_return_after_clear (inp : SetupInput) (s : GlobalWsState)
    (h : Nat) (hsup : inp.supported = true) (hen : inp.enabled = true)
    (hhttp : s.globalHttpServer = some h)
    (hlist : (listenerFor s.listenerMap h).isSome = true) :
    setupWebSocketServer inp s = { s with globalWsServer := none, handlerCache := [] } := by
  obtain ⟨w, hw⟩ := Option.isSome_iff_exists.mp hlist
  simp [setupWebSocketServer, hsup, hen, hhttp, hw]

/-- Witness for double_setup_early_return_after_clear: the second setup call
on attachedState returns it with only the WebSocket server slot and the
handler cache cleared. -/
theorem double_setup_early_return_after_clear_witness :
    setupWebSocketServer
        { httpServerId := 1, freshWsId := 11, supported := true, enabled := true }
        attachedState
      = { attachedState with globalWsServer := none, handlerCache := [] } :=
  double_setup_early_return_after_clear
    { httpServerId := 1, freshWsId := 11, supported := true, enabled := true }
    attachedState 1 rfl rfl rfl (by decide)
